import Mathlib

/-!
Verification of the natural-language specification of a mesa driver fragment
against its source:

* `src/amd/common/ac_nir_lower_taskmesh_io_to_mem.c` — NIR lowering passes that
  rewrite task/mesh shader cross-stage I/O into AMD ring-buffer memory accesses.
* `src/imagination/vulkan/winsys/pvrsrvkm/fw-api/pvr_rogue_fwif.h` — firmware
  command struct layouts and their static assertions.
* `src/imagination/vulkan/pvr_wsi.c` — Vulkan WSI shim.
* `src/panfrost/bifrost/bi_test.h` — shader-equality test helpers.

The NIR builder calls are embedded shallowly: pure value-producing builder
calls (`nir_iadd`, `nir_iand_imm`, `nir_ubfe`, ...) become an expression type
`NExp` with an evaluation semantics over natural numbers (32/64-bit machine
arithmetic is made explicit with `% 2^32` / `% 2^64`), and the side-effecting
intrinsic instructions the passes filter and emit become an instruction type
`Intrin` inside a structured control-flow tree `Cf`/`CfList` mirroring the NIR
block/if structure that `nir_shader_lower_instructions` walks.
-/

namespace Mesa

/-! ### Machine arithmetic helpers -/

def pow2_32 : Nat := 2 ^ 32

def pow2_64 : Nat := 2 ^ 64

/-- `util_bitcount` from `u_math.h`: population count of a 32-bit value. -/
def util_bitcount : Nat → Nat
  | 0 => 0
  | n + 1 => (n + 1) % 2 + util_bitcount ((n + 1) / 2)

/-- Semantics of NIR's `ubfe` opcode (unsigned bit-field extract), as defined in
`nir_opcodes.py`: offset and bits are taken modulo 32; a zero-width field gives
0; if the field reaches past bit 31 the extraction is clipped at the top. -/
def nir_ubfe_val (base offset bits : Nat) : Nat :=
  let o := offset % 32
  let b := bits % 32
  if b = 0 then 0
  else if o + b < 32 then (base / 2 ^ o) % 2 ^ b
  else base / 2 ^ o

/-! ### NIR SSA values as expressions

Each constructor mirrors one `nir_builder` call used by
`ac_nir_lower_taskmesh_io_to_mem.c`.  Ops that the source uses at 32 bits are
evaluated modulo `2^32`, ops used at 64 bits modulo `2^64`. -/

inductive NExp where
  /-- `nir_imm_int` -/
  | imm (v : Nat)
  /-- a pre-existing SSA value of the unlowered shader -/
  | ssa (id : Nat)
  /-- `nir_load_task_ring_entry_amd` -/
  | load_task_ring_entry
  /-- `nir_load_workgroup_id` (three components) -/
  | load_workgroup_id
  /-- `nir_load_ring_task_draw_amd` (draw ring descriptor) -/
  | load_ring_task_draw
  /-- `nir_load_ring_task_payload_amd` (payload ring descriptor) -/
  | load_ring_task_payload
  /-- `nir_load_local_invocation_index` -/
  | load_local_invocation_index
  /-- `nir_load_task_ib_stride` -/
  | load_task_ib_stride
  /-- `nir_load_task_ib_addr` (two components) -/
  | load_task_ib_addr
  /-- `nir_load_draw_id` -/
  | load_draw_id
  /-- `nir_channel` -/
  | channel (e : NExp) (i : Nat)
  /-- `nir_vec3` -/
  | vec3 (x y z : NExp)
  /-- `nir_iadd_nuw` at 32 bits -/
  | iadd_nuw (a b : NExp)
  /-- `nir_iadd` at 32 bits -/
  | iadd32 (a b : NExp)
  /-- `nir_iadd` at 64 bits -/
  | iadd64 (a b : NExp)
  /-- `nir_iadd_imm` at 64 bits -/
  | iadd_imm64 (a : NExp) (k : Nat)
  /-- `nir_imul` at 32 bits -/
  | imul32 (a b : NExp)
  /-- `nir_imul_imm` at 32 bits -/
  | imul_imm (a : NExp) (k : Nat)
  /-- `nir_iand_imm` at 32 bits -/
  | iand_imm (a : NExp) (k : Nat)
  /-- `nir_ubfe` -/
  | ubfe (a off bits : NExp)
  /-- `nir_ine` -/
  | ine (a b : NExp)
  /-- `nir_ieq_imm` -/
  | ieq_imm (a : NExp) (k : Nat)
  /-- `nir_u2u64` -/
  | u2u64 (a : NExp)
  /-- `nir_pack_64_2x32_split` -/
  | pack_64_2x32_split (lo hi : NExp)
  /-- `nir_build_load_global` (one 32-bit component) -/
  | load_global (addr : NExp)
  /-- `nir_if_phi` joining the two branches of a `nir_push_if` region -/
  | if_phi (cond thn els : NExp)
deriving DecidableEq

/-- Evaluation environment: the values delivered by the hardware/system-value
intrinsics, global memory, and the pre-existing SSA values of the shader. -/
structure Env where
  ring_entry : Nat
  wg_x : Nat
  wg_y : Nat
  wg_z : Nat
  local_invocation_index : Nat
  ib_stride : Nat
  ib_addr_lo : Nat
  ib_addr_hi : Nat
  draw_id : Nat
  mem : Nat → Nat
  ssa_val : Nat → List Nat

/-- First (x) component of a possibly multi-component value. -/
def headv (v : List Nat) : Nat := v.headD 0

/-- Value semantics of the embedded builder expressions. -/
def NExp.eval (env : Env) : NExp → List Nat
  | .imm v => [v]
  | .ssa id => env.ssa_val id
  | .load_task_ring_entry => [env.ring_entry]
  | .load_workgroup_id => [env.wg_x, env.wg_y, env.wg_z]
  | .load_ring_task_draw => [0]
  | .load_ring_task_payload => [0]
  | .load_local_invocation_index => [env.local_invocation_index]
  | .load_task_ib_stride => [env.ib_stride]
  | .load_task_ib_addr => [env.ib_addr_lo, env.ib_addr_hi]
  | .load_draw_id => [env.draw_id]
  | .channel e i => [(e.eval env).getD i 0]
  | .vec3 x y z => [headv (x.eval env), headv (y.eval env), headv (z.eval env)]
  | .iadd_nuw a b => [(headv (a.eval env) + headv (b.eval env)) % pow2_32]
  | .iadd32 a b => [(headv (a.eval env) + headv (b.eval env)) % pow2_32]
  | .iadd64 a b => [(headv (a.eval env) + headv (b.eval env)) % pow2_64]
  | .iadd_imm64 a k => [(headv (a.eval env) + k) % pow2_64]
  | .imul32 a b => [(headv (a.eval env) * headv (b.eval env)) % pow2_32]
  | .imul_imm a k => [(headv (a.eval env) * k) % pow2_32]
  | .iand_imm a k => [headv (a.eval env) &&& k]
  | .ubfe a off bits =>
      [nir_ubfe_val (headv (a.eval env)) (headv (off.eval env)) (headv (bits.eval env))]
  | .ine a b => [if headv (a.eval env) ≠ headv (b.eval env) then 1 else 0]
  | .ieq_imm a k => [if headv (a.eval env) = k then 1 else 0]
  | .u2u64 a => [headv (a.eval env)]
  | .pack_64_2x32_split lo hi => [headv (lo.eval env) + headv (hi.eval env) * pow2_32]
  | .load_global addr => [env.mem (headv (addr.eval env))]
  | .if_phi cond thn els =>
      if headv (cond.eval env) ≠ 0 then thn.eval env else els.eval env

/-! ### NIR variable modes, scopes and memory semantics

Bit positions / enumerator values as in `nir.h`; the claims depend only on
these being the fixed constants named in the source. -/

def nir_var_shader_out : Nat := 2 ^ 1

def nir_var_mem_ssbo : Nat := 2 ^ 7

def nir_var_mem_global : Nat := 2 ^ 9

def nir_var_mem_task_payload : Nat := 2 ^ 13

def NIR_SCOPE_WORKGROUP : Nat := 4

def NIR_MEMORY_ACQUIRE : Nat := 2 ^ 0

def NIR_MEMORY_RELEASE : Nat := 2 ^ 1

def NIR_MEMORY_ACQ_REL : Nat := NIR_MEMORY_ACQUIRE ||| NIR_MEMORY_RELEASE

/-! ### Intrinsic instructions and control flow -/

/-- The side-effecting intrinsic instructions relevant to the lowering passes.
`other` stands for any unrelated instruction of the shader (its sources are
kept so that use rewriting can be expressed). -/
inductive Intrin where
  | store_output (val : NExp)
  | store_task_payload (val addr : NExp) (base write_mask : Nat)
  | load_task_payload (dest : Nat) (num_components bit_size base : Nat) (addr : NExp)
  /-- `nir_store_buffer_amd`; `write_mask = none` when the builder call leaves
  the index at its default. -/
  | store_buffer_amd (val descr voff soff : NExp) (base : Nat)
      (write_mask : Option Nat) (memory_modes : Nat)
  | load_buffer_amd (dest : Nat) (num_components bit_size : Nat)
      (descr voff soff : NExp) (base memory_modes : Nat)
  | scoped_barrier (execution_scope memory_scope memory_semantics memory_modes : Nat)
  | other (tag : Nat) (srcs : List NExp)
deriving DecidableEq

mutual
/-- Structured control flow: an instruction, or an if-region as created by
`nir_push_if`/`nir_pop_if`. -/
inductive Cf where
  | instr (i : Intrin)
  | ifStmt (cond : NExp) (thn els : CfList)
/-- A sequence of control-flow nodes (the body of a block list). -/
inductive CfList where
  | nil
  | cons (c : Cf) (rest : CfList)
end

def CfList.append : CfList → CfList → CfList
  | .nil, ys => ys
  | .cons x xs, ys => .cons x (CfList.append xs ys)

def instrsToCfList : List Intrin → CfList
  | [] => .nil
  | i :: is => .cons (.instr i) (instrsToCfList is)

mutual
/-- Every instruction in the tree satisfies `p`. -/
def Cf.all_instr (p : Intrin → Bool) : Cf → Bool
  | .instr i => p i
  | .ifStmt _ t e => CfList.all_instr p t && CfList.all_instr p e
def CfList.all_instr (p : Intrin → Bool) : CfList → Bool
  | .nil => true
  | .cons c cs => Cf.all_instr p c && CfList.all_instr p cs
end

mutual
/-- Model of `nir_shader_lower_instructions`: every instruction matched by
`filter` is removed and replaced in place by the instructions the `lower`
callback emits; all other instructions are kept, and the walk descends into
both branches of every if-region. -/
def lowerInstructionsCf (filter : Intrin → Bool) (lower : Intrin → List Intrin) :
    Cf → CfList
  | .instr i => if filter i then instrsToCfList (lower i) else .cons (.instr i) .nil
  | .ifStmt c t e =>
      .cons (.ifStmt c (lowerInstructionsList filter lower t)
                       (lowerInstructionsList filter lower e)) .nil
def lowerInstructionsList (filter : Intrin → Bool) (lower : Intrin → List Intrin) :
    CfList → CfList
  | .nil => .nil
  | .cons c cs =>
      CfList.append (lowerInstructionsCf filter lower c)
                    (lowerInstructionsList filter lower cs)
end

/-! ### The task/mesh I/O lowering passes
(`ac_nir_lower_taskmesh_io_to_mem.c`) -/

/-- `lower_tsms_io_state` from the source. -/
structure lower_tsms_io_state where
  payload_entry_bytes : Nat
  draw_entry_bytes : Nat
  num_entries : Nat
deriving DecidableEq

/-- `task_workgroup_index`: workgroups are 1D, the index is workgroup id.x. -/
def task_workgroup_index : NExp := .channel .load_workgroup_id 0

/-- `task_ring_entry_index`: `(ring_entry + workgroup_index) & (num_entries - 1)`. -/
def task_ring_entry_index (s : lower_tsms_io_state) : NExp :=
  .iand_imm (.iadd_nuw .load_task_ring_entry task_workgroup_index) (s.num_entries - 1)

/-- `task_draw_ready_bit`:
`ubfe(ring_entry + workgroup_index, util_bitcount(num_entries - 1), 1)`. -/
def task_draw_ready_bit (s : lower_tsms_io_state) : NExp :=
  .ubfe (.iadd_nuw .load_task_ring_entry task_workgroup_index)
        (.imm (util_bitcount (s.num_entries - 1))) (.imm 1)

/-- `mesh_ring_entry_index`: `ring_entry & (num_entries - 1)`. -/
def mesh_ring_entry_index (s : lower_tsms_io_state) : NExp :=
  .iand_imm .load_task_ring_entry (s.num_entries - 1)

/-- `task_write_draw_ring`: a `nir_store_buffer_amd` on the draw ring at scalar
offset `entry_index * draw_entry_bytes`, vector offset 0, base `const_off`. -/
def task_write_draw_ring (store_val : NExp) (const_off : Nat)
    (s : lower_tsms_io_state) : Intrin :=
  .store_buffer_amd store_val .load_ring_task_draw (.imm 0)
    (.imul_imm (task_ring_entry_index s) s.draw_entry_bytes)
    const_off none nir_var_shader_out

/-- `filter_task_output_or_payload`. -/
def filter_task_output_or_payload : Intrin → Bool
  | .store_output _ => true
  | .store_task_payload _ _ _ _ => true
  | .load_task_payload _ _ _ _ _ => true
  | _ => false

/-- `lower_task_output_store`: store `vec3(task_count, 1, 1)` at offset 0 of the
workgroup's draw ring entry. -/
def lower_task_output_store (s : lower_tsms_io_state) (val : NExp) : List Intrin :=
  [task_write_draw_ring (.vec3 val (.imm 1) (.imm 1)) 0 s]

/-- `lower_task_payload_store`. -/
def lower_task_payload_store (s : lower_tsms_io_state) (val addr : NExp)
    (base write_mask : Nat) : List Intrin :=
  [.store_buffer_amd val .load_ring_task_payload addr
     (.imul_imm (task_ring_entry_index s) s.payload_entry_bytes)
     base (some write_mask) nir_var_mem_task_payload]

/-- `lower_taskmesh_payload_load`; `stage_is_task` selects the task or mesh
ring entry index, mirroring the check of `b->shader->info.stage`. -/
def lower_taskmesh_payload_load (stage_is_task : Bool) (s : lower_tsms_io_state)
    (dest num_components bit_size base : Nat) (addr : NExp) : List Intrin :=
  [.load_buffer_amd dest num_components bit_size .load_ring_task_payload addr
     (.imul_imm (if stage_is_task then task_ring_entry_index s else mesh_ring_entry_index s)
        s.payload_entry_bytes)
     base nir_var_mem_task_payload]

/-- `lower_task_intrinsics`.  The source marks other intrinsics unreachable
(the filter never passes them in); the model returns them unchanged. -/
def lower_task_intrinsics (s : lower_tsms_io_state) : Intrin → List Intrin
  | .store_output val => lower_task_output_store s val
  | .store_task_payload val addr base wm => lower_task_payload_store s val addr base wm
  | .load_task_payload dest nc bs base addr =>
      lower_taskmesh_payload_load true s dest nc bs base addr
  | i => [i]

/-- `emit_task_finale`: appended after the last block — a workgroup-scope
acq/rel barrier over task payload, shader output, SSBO and global memory,
then (for local invocation index 0 only) the ready-bit store at byte offset 12
of the draw ring entry. -/
def emit_task_finale (s : lower_tsms_io_state) : CfList :=
  .cons (.instr (.scoped_barrier NIR_SCOPE_WORKGROUP NIR_SCOPE_WORKGROUP
                   NIR_MEMORY_ACQ_REL
                   (nir_var_mem_task_payload ||| nir_var_shader_out |||
                    nir_var_mem_ssbo ||| nir_var_mem_global)))
  (.cons (.ifStmt (.ieq_imm .load_local_invocation_index 0)
            (.cons (.instr (task_write_draw_ring (task_draw_ready_bit s) 12 s)) .nil)
            .nil)
   .nil)

/-- The `lower_tsms_io_state` both passes build: `draw_entry_bytes = 16`. -/
def taskmesh_io_state (task_payload_entry_bytes task_num_entries : Nat) :
    lower_tsms_io_state :=
  { draw_entry_bytes := 16
    payload_entry_bytes := task_payload_entry_bytes
    num_entries := task_num_entries }

/-- `ac_nir_lower_task_outputs_to_mem` acting on the shader body.
The source asserts `util_is_power_of_two_nonzero(task_num_entries)`. -/
def ac_nir_lower_task_outputs_to_mem (task_payload_entry_bytes task_num_entries : Nat)
    (body : CfList) : CfList :=
  let state := taskmesh_io_state task_payload_entry_bytes task_num_entries
  CfList.append
    (lowerInstructionsList filter_task_output_or_payload
       (lower_task_intrinsics state) body)
    (emit_task_finale state)

/-- `filter_mesh_input_load`. -/
def filter_mesh_input_load : Intrin → Bool
  | .load_task_payload _ _ _ _ _ => true
  | _ => false

/-- `lower_mesh_intrinsics` (stage is `MESA_SHADER_MESH`). -/
def lower_mesh_intrinsics (s : lower_tsms_io_state) : Intrin → List Intrin
  | .load_task_payload dest nc bs base addr =>
      lower_taskmesh_payload_load false s dest nc bs base addr
  | i => [i]

/-- `ac_nir_lower_mesh_inputs_to_mem` acting on the shader body. -/
def ac_nir_lower_mesh_inputs_to_mem (task_payload_entry_bytes task_num_entries : Nat)
    (body : CfList) : CfList :=
  let state := taskmesh_io_state task_payload_entry_bytes task_num_entries
  lowerInstructionsList filter_mesh_input_load (lower_mesh_intrinsics state) body

/-! ### `ac_nir_apply_first_task_to_task_shader` -/

/-- A shader, as far as this pass observes it: whether
`BITSET_TEST(info.system_values_read, SYSTEM_VALUE_WORKGROUP_ID)` holds, and
the body. -/
structure nir_shader where
  reads_workgroup_id : Bool
  body : CfList

/-- The `first_task` value built at the top of the shader: if the IB stride is
nonzero, a global load from `ib_addr + draw_id * ib_stride + 4`, else 0. -/
def first_task_value : NExp :=
  .if_phi (.ine .load_task_ib_stride (.imm 0))
    (.load_global (.iadd_imm64
       (.iadd64
          (.pack_64_2x32_split (.channel .load_task_ib_addr 0)
                               (.channel .load_task_ib_addr 1))
          (.u2u64 (.imul32 .load_draw_id .load_task_ib_stride)))
       4))
    (.imm 0)

/-- The replacement workgroup id:
`vec3(hw_workgroup_id.x + first_task, 0, 0)`. -/
def api_workgroup_id : NExp :=
  .vec3 (.iadd32 (.channel .load_workgroup_id 0) first_task_value) (.imm 0) (.imm 0)

/-- Replace every use of the pre-existing `load_workgroup_id` value by `r`
(the newly built value is not itself rewritten, so substitution does not
recurse into the replacement). -/
def NExp.subst_wgid : NExp → NExp → NExp
  | .load_workgroup_id, r => r
  | .channel e i, r => .channel (e.subst_wgid r) i
  | .vec3 x y z, r => .vec3 (x.subst_wgid r) (y.subst_wgid r) (z.subst_wgid r)
  | .iadd_nuw a b, r => .iadd_nuw (a.subst_wgid r) (b.subst_wgid r)
  | .iadd32 a b, r => .iadd32 (a.subst_wgid r) (b.subst_wgid r)
  | .iadd64 a b, r => .iadd64 (a.subst_wgid r) (b.subst_wgid r)
  | .iadd_imm64 a k, r => .iadd_imm64 (a.subst_wgid r) k
  | .imul32 a b, r => .imul32 (a.subst_wgid r) (b.subst_wgid r)
  | .imul_imm a k, r => .imul_imm (a.subst_wgid r) k
  | .iand_imm a k, r => .iand_imm (a.subst_wgid r) k
  | .ubfe a off bits, r => .ubfe (a.subst_wgid r) (off.subst_wgid r) (bits.subst_wgid r)
  | .ine a b, r => .ine (a.subst_wgid r) (b.subst_wgid r)
  | .ieq_imm a k, r => .ieq_imm (a.subst_wgid r) k
  | .u2u64 a, r => .u2u64 (a.subst_wgid r)
  | .pack_64_2x32_split lo hi, r => .pack_64_2x32_split (lo.subst_wgid r) (hi.subst_wgid r)
  | .load_global a, r => .load_global (a.subst_wgid r)
  | .if_phi c t e, r => .if_phi (c.subst_wgid r) (t.subst_wgid r) (e.subst_wgid r)
  | e, _ => e

def Intrin.subst_wgid : Intrin → NExp → Intrin
  | .store_output val, r => .store_output (val.subst_wgid r)
  | .store_task_payload val addr base wm, r =>
      .store_task_payload (val.subst_wgid r) (addr.subst_wgid r) base wm
  | .load_task_payload dest nc bs base addr, r =>
      .load_task_payload dest nc bs base (addr.subst_wgid r)
  | .store_buffer_amd val descr voff soff base wm mm, r =>
      .store_buffer_amd (val.subst_wgid r) (descr.subst_wgid r)
        (voff.subst_wgid r) (soff.subst_wgid r) base wm mm
  | .load_buffer_amd dest nc bs descr voff soff base mm, r =>
      .load_buffer_amd dest nc bs (descr.subst_wgid r)
        (voff.subst_wgid r) (soff.subst_wgid r) base mm
  | .scoped_barrier a b c d, _ => .scoped_barrier a b c d
  | .other tag srcs, r => .other tag (srcs.map (fun e => e.subst_wgid r))

mutual
def Cf.subst_wgid : Cf → NExp → Cf
  | .instr i, r => .instr (i.subst_wgid r)
  | .ifStmt c t e, r => .ifStmt (c.subst_wgid r) (t.subst_wgid r) (e.subst_wgid r)
def CfList.subst_wgid : CfList → NExp → CfList
  | .nil, _ => .nil
  | .cons c cs, r => .cons (c.subst_wgid r) (cs.subst_wgid r)
end

/-- `ac_nir_apply_first_task_to_task_shader`: when the shader reads
`SYSTEM_VALUE_WORKGROUP_ID`, every pre-existing workgroup-id use is rewritten
to `api_workgroup_id`; otherwise the shader is returned unchanged. -/
def ac_nir_apply_first_task_to_task_shader (shader : nir_shader) : nir_shader :=
  if shader.reads_workgroup_id then
    { shader with body := shader.body.subst_wgid api_workgroup_id }
  else shader

/-! ### Vulkan WSI shim (`pvr_wsi.c`) -/

def VK_SUCCESS : Int := 0

def VK_SUBOPTIMAL_KHR : Int := 1000001003

def VK_ERROR_OUT_OF_DATE_KHR : Int := -1000001004

def VK_ERROR_OUT_OF_HOST_MEMORY : Int := -1

/-- A `vk_sync` payload installed in a fence's or semaphore's temporary slot. -/
inductive VkSync where
  /-- a sync of `vk_sync_dummy_type` -/
  | dummy
  /-- any other payload -/
  | payload (n : Nat)
deriving DecidableEq

/-- The observable driver state touched by `pvr_QueuePresentKHR`: the result it
returns and `device->global_queue_present_count`. -/
structure PresentOut where
  result : Int
  global_queue_present_count : Nat
deriving DecidableEq

/-- `pvr_QueuePresentKHR` given the result of the wrapped
`wsi_common_queue_present` call and the current present count. -/
def pvr_QueuePresentKHR (wsi_result : Int) (global_queue_present_count : Nat) :
    PresentOut :=
  if wsi_result ≠ VK_SUCCESS then ⟨wsi_result, global_queue_present_count⟩
  else ⟨VK_SUCCESS, global_queue_present_count + 1⟩

/-- Result and final fence/semaphore temporary payloads of
`pvr_AcquireNextImage2KHR`.  A fence (or semaphore) is `none` when the caller
passed `VK_NULL_HANDLE`, and otherwise carries its temporary payload slot. -/
structure AcquireOut where
  result : Int
  fence : Option (Option VkSync)
  sem : Option (Option VkSync)
deriving DecidableEq

/-- `pvr_AcquireNextImage2KHR` given the result of the wrapped
`wsi_common_acquire_next_image2` call, the incoming fence and semaphore
temporary payload slots, and the results of the two potential
`vk_sync_create(.., vk_sync_dummy_type, ..)` calls.
`vk_fence_reset_temporary` / `vk_semaphore_reset_temporary` clear the slot;
a successful `vk_sync_create` installs the dummy sync in it. -/
def pvr_AcquireNextImage2KHR (wsi_result : Int)
    (fence sem : Option (Option VkSync))
    (fence_create_result sem_create_result : Int) : AcquireOut :=
  if wsi_result ≠ VK_SUCCESS ∧ wsi_result ≠ VK_SUBOPTIMAL_KHR then
    ⟨wsi_result, fence, sem⟩
  else
    -- the semaphore block, entered with the final fence slot state
    let semStep : Option (Option VkSync) → AcquireOut := fun f =>
      match sem with
      | some _ =>
        if sem_create_result = VK_SUCCESS then ⟨wsi_result, f, some (some VkSync.dummy)⟩
        else ⟨sem_create_result, f, some none⟩
      | none => ⟨wsi_result, f, none⟩
    match fence with
    | some _ =>
      if fence_create_result = VK_SUCCESS then semStep (some (some VkSync.dummy))
      else ⟨fence_create_result, some none, sem⟩
    | none => semStep none

/-! ### Bifrost test helpers (`bi_test.h`) -/

/-- A `bi_instr`, as observed by `bit_instr_equal`: the leading intrusive list
link (`struct list_head`, skipped by the comparison) and the remaining bytes
of the instruction. -/
structure bi_instr where
  link : Nat
  bytes : List Nat
deriving DecidableEq

/-- A `bi_block`: its own link and its instruction list. -/
structure bi_block where
  link : Nat
  instructions : List bi_instr
deriving DecidableEq

/-- A `bi_context`: its block list. -/
structure bi_context where
  blocks : List bi_block
deriving DecidableEq

/-- `bit_instr_equal`: `memcmp` of everything after the leading link. -/
def bit_instr_equal (A B : bi_instr) : Bool := A.bytes == B.bytes

/-- `list_pair_for_each_entry`: walk two lists in lockstep, stopping as soon as
either ends, requiring `p` pairwise. -/
def list_pair_all (p : α → α → Bool) : List α → List α → Bool
  | a :: as, b :: bs => p a b && list_pair_all p as bs
  | _, _ => true

/-- `bit_block_equal`. -/
def bit_block_equal (A B : bi_block) : Bool :=
  A.instructions.length == B.instructions.length &&
  list_pair_all bit_instr_equal A.instructions B.instructions

/-- `bit_shader_equal`. -/
def bit_shader_equal (A B : bi_context) : Bool :=
  A.blocks.length == B.blocks.length &&
  list_pair_all bit_block_equal A.blocks B.blocks

/-! ### Firmware command struct layouts (`pvr_rogue_fwif.h`)

A field is modelled by its size and alignment; struct layout follows the
standard C rules the compiler applies to these headers (ILP32/LP64 with
4-byte `uint32_t`, 8-byte `uint64_t`): each field is placed at its offset
rounded up to its alignment, the struct is padded to a multiple of its own
alignment, and `ALIGN(n)` raises a member's alignment requirement to `n`. -/

structure CField where
  size : Nat
  align : Nat
deriving DecidableEq

def alignUp (n a : Nat) : Nat := (n + a - 1) / a * a

def u32 : CField := ⟨4, 4⟩

def u64 : CField := ⟨8, 8⟩

/-- An array field `T name[n]`. -/
def carr (n : Nat) (f : CField) : CField := ⟨n * f.size, f.align⟩

/-- The mesa `ALIGN(a)` member attribute: raises the member alignment. -/
def withAlign (a : Nat) (f : CField) : CField := ⟨f.size, max f.align a⟩

def structAlign (fs : List CField) : Nat := fs.foldl (fun m f => max m f.align) 1

def structEndOffset (fs : List CField) : Nat :=
  fs.foldl (fun off f => alignUp off f.align + f.size) 0

def sizeofStruct (fs : List CField) : Nat :=
  alignUp (structEndOffset fs) (structAlign fs)

/-- A struct used as a field of another struct. -/
def structField (fs : List CField) : CField := ⟨sizeofStruct fs, structAlign fs⟩

/-- `offsetof` of the first member. -/
def offsetof_first (fs : List CField) : Nat :=
  match fs with
  | [] => 0
  | f :: _ => alignUp 0 f.align

/-- Modelled from the spec: `ROGUE_FWIF_DM_INDEPENDENT_KICK_CMD_SIZE` comes
from `pvr_rogue_fwif_shared.h`, which is not part of this source excerpt (the
spec describes these headers as a fixed binary layout dictated by an external,
immutable firmware ABI); in that header the kick command size is 1024 bytes. -/
def ROGUE_FWIF_DM_INDEPENDENT_KICK_CMD_SIZE : Nat := 1024

/-- Modelled from the spec: `struct rogue_fwif_cmd_common` comes from
`pvr_rogue_fwif_shared.h`, not part of this source excerpt; it holds a single
`uint32_t frame_num`. -/
def rogue_fwif_cmd_common : List CField := [u32]

/-- Modelled from the spec: `struct rogue_fwif_cmd_ta_3d_shared` comes from
`pvr_rogue_fwif_shared.h`, not part of this source excerpt; it holds the
common command header, a `uint32_t` RTData firmware address and the
`uint32_t pr_buffer_fw_addr[ROGUE_FWIF_PRBUFFER_MAXSUPPORTED]` array with
`ROGUE_FWIF_PRBUFFER_MAXSUPPORTED = 2`. -/
def rogue_fwif_cmd_ta_3d_shared : List CField :=
  [structField rogue_fwif_cmd_common, u32, carr 2 u32]

/-- Modelled from the spec: `struct rogue_fwif_ufo` comes from
`pvr_rogue_fwif_shared.h`, not part of this source excerpt; it holds a
firmware device virtual address and a `uint32_t` value. -/
def rogue_fwif_ufo : List CField := [u32, u32]

/-- `struct rogue_fwif_ta_regs`. -/
def rogue_fwif_ta_regs : List CField :=
  [u64,  -- vdm_ctrl_stream_base
   u64,  -- tpu_border_colour_table
   u32,  -- ppp_ctrl
   u32,  -- te_psg
   u32,  -- tpu
   u32,  -- vdm_context_resume_task0_size
   u32,  -- pds_ctrl
   u32]  -- view_idx

/-- `struct rogue_fwif_cmd_ta`. -/
def rogue_fwif_cmd_ta : List CField :=
  [structField rogue_fwif_cmd_ta_3d_shared,       -- cmd_shared
   withAlign 8 (structField rogue_fwif_ta_regs),  -- geom_regs
   withAlign 8 u32,                               -- flags
   structField rogue_fwif_ufo]                    -- TA/3D fence for partial renders

/-- `struct rogue_fwif_3d_regs`. -/
def rogue_fwif_3d_regs : List CField :=
  [u32,             -- usc_pixel_output_ctrl
   carr 8 u32,      -- usc_clear_register[ROGUE_MAXIMUM_OUTPUT_REGISTERS_PER_PIXEL]
   u32,             -- isp_bgobjdepth
   u32,             -- isp_bgobjvals
   u32,             -- isp_aa
   u32,             -- isp_ctl
   u32,             -- tpu
   u32,             -- event_pixel_pds_info
   u32,             -- pixel_phantom
   u32,             -- view_idx
   u32,             -- event_pixel_pds_data
   withAlign 8 u64, -- isp_scissor_base
   u64,             -- isp_dbias_base
   u64,             -- isp_oclqry_base
   u64,             -- isp_zlsctl
   u64,             -- isp_zload_store_base
   u64,             -- isp_stencil_load_store_base
   u64,             -- isp_zls_pixels
   u64,             -- deprecated
   carr 16 u64,     -- pbe_word[8][ROGUE_PBE_WORDS_REQUIRED_FOR_RENDERS]
   u64,             -- tpu_border_colour_table
   carr 3 u64,      -- pds_bgnd[3]
   carr 3 u64]      -- pds_pr_bgnd[3]

/-- `struct rogue_fwif_cmd_3d`. -/
def rogue_fwif_cmd_3d : List CField :=
  [withAlign 8 (structField rogue_fwif_cmd_ta_3d_shared), -- cmd_shared
   withAlign 8 (structField rogue_fwif_3d_regs),          -- regs
   u32,                                                   -- flags
   u32,                                                   -- zls_stride
   u32]                                                   -- sls_stride

/-- `struct rogue_fwif_transfer_regs`. -/
def rogue_fwif_transfer_regs : List CField :=
  [u32,             -- isp_bgobjvals
   u32,             -- usc_pixel_output_ctrl
   u32,             -- usc_clear_register0
   u32,             -- usc_clear_register1
   u32,             -- usc_clear_register2
   u32,             -- usc_clear_register3
   u32,             -- isp_mtile_size
   u32,             -- isp_render_origin
   u32,             -- isp_ctl
   u32,             -- isp_aa
   u32,             -- event_pixel_pds_info
   u32,             -- event_pixel_pds_code
   u32,             -- event_pixel_pds_data
   u32,             -- isp_render
   u32,             -- isp_rgn
   withAlign 8 u64, -- pds_bgnd0_base
   u64,             -- pds_bgnd1_base
   u64,             -- pds_bgnd3_sizeinfo
   u64,             -- isp_mtile_base
   carr 9 u64]      -- pbe_wordx_mrty[3U * ROGUE_PBE_WORDS_REQUIRED_FOR_TRANSFER]

/-- `struct rogue_fwif_cmd_transfer`. -/
def rogue_fwif_cmd_transfer : List CField :=
  [withAlign 8 (structField rogue_fwif_cmd_common),     -- cmn
   withAlign 8 (structField rogue_fwif_transfer_regs),  -- regs
   u32]                                                 -- flags

/-- `struct rogue_fwif_2d_regs`. -/
def rogue_fwif_2d_regs : List CField :=
  [u64,  -- tla_cmd_stream
   u64,  -- deprecated_0
   u64,  -- deprecated_1
   u64,  -- deprecated_2
   u64,  -- deprecated_3
   u64]  -- brn57193_tla_cmd_stream

/-- `struct rogue_fwif_cmd_2d`. -/
def rogue_fwif_cmd_2d : List CField :=
  [withAlign 8 (structField rogue_fwif_cmd_common),  -- cmn
   withAlign 8 (structField rogue_fwif_2d_regs),     -- regs
   u32]                                              -- flags

/-- `struct rogue_fwif_cdm_regs`. -/
def rogue_fwif_cdm_regs : List CField :=
  [u64,  -- tpu_border_colour_table
   u64,  -- cdm_item
   u64,  -- compute_cluster
   u64,  -- cdm_ctrl_stream_base
   u64,  -- cdm_contex_state_base_addr
   u32,  -- tpu
   u32]  -- cdm_resume_pds1

/-- `struct rogue_fwif_cmd_compute`. -/
def rogue_fwif_cmd_compute : List CField :=
  [withAlign 8 (structField rogue_fwif_cmd_common),  -- cmn
   withAlign 8 (structField rogue_fwif_cdm_regs),    -- regs
   withAlign 8 u32]                                  -- flags

/-! ### Helper lemmas -/

theorem util_bitcount_two_pow_sub_one (k : Nat) : util_bitcount (2 ^ k - 1) = k := by
  induction k with
  | zero => simp [util_bitcount]
  | succ k ih =>
    have h1 : (1 : Nat) ≤ 2 ^ k := Nat.one_le_two_pow
    have h2 : 2 ^ (k + 1) - 1 = 2 * (2 ^ k - 1) + 1 := by
      have := Nat.pow_succ 2 k
      omega
    rw [h2, util_bitcount]
    have h4 : (2 * (2 ^ k - 1) + 1) % 2 = 1 := by omega
    have h5 : (2 * (2 ^ k - 1) + 1) / 2 = 2 ^ k - 1 := by omega
    rw [h4, h5, ih]
    omega

theorem all_instr_append (p : Intrin → Bool) :
    ∀ a b : CfList,
      CfList.all_instr p (CfList.append a b) =
        (CfList.all_instr p a && CfList.all_instr p b)
  | .nil, b => by simp [CfList.append, CfList.all_instr]
  | .cons x xs, b => by
      simp [CfList.append, CfList.all_instr, all_instr_append p xs b, Bool.and_assoc]

theorem all_instr_instrsToCfList (p : Intrin → Bool) :
    ∀ l : List Intrin, CfList.all_instr p (instrsToCfList l) = l.all p
  | [] => rfl
  | i :: is => by
      simp [instrsToCfList, CfList.all_instr, Cf.all_instr,
            all_instr_instrsToCfList p is]

mutual
theorem all_instr_lowerCf (p q : Intrin → Bool) (lower : Intrin → List Intrin)
    (h1 : ∀ i, p i = true → (lower i).all q = true)
    (h2 : ∀ i, p i = false → q i = true) :
    ∀ c : Cf, CfList.all_instr q (lowerInstructionsCf p lower c) = true
  | .instr i => by
      by_cases hp : p i = true
      · simp [lowerInstructionsCf, hp, all_instr_instrsToCfList, h1 i hp]
      · have hf : p i = false := by revert hp; cases p i <;> simp
        simp [lowerInstructionsCf, hf, CfList.all_instr, Cf.all_instr, h2 i hf]
  | .ifStmt c t e => by
      simp [lowerInstructionsCf, CfList.all_instr, Cf.all_instr,
            all_instr_lowerList p q lower h1 h2 t, all_instr_lowerList p q lower h1 h2 e]
theorem all_instr_lowerList (p q : Intrin → Bool) (lower : Intrin → List Intrin)
    (h1 : ∀ i, p i = true → (lower i).all q = true)
    (h2 : ∀ i, p i = false → q i = true) :
    ∀ cs : CfList, CfList.all_instr q (lowerInstructionsList p lower cs) = true
  | .nil => rfl
  | .cons c cs => by
      simp [lowerInstructionsList, all_instr_append,
            all_instr_lowerCf p q lower h1 h2 c, all_instr_lowerList p q lower h1 h2 cs]
end

/-- A `nir_store_buffer_amd`/`nir_load_buffer_amd` whose descriptor is the task
draw ring or the task payload ring. -/
def Intrin.is_ring_buffer_access : Intrin → Bool
  | .store_buffer_amd _ descr _ _ _ _ _ =>
      descr == NExp.load_ring_task_draw || descr == NExp.load_ring_task_payload
  | .load_buffer_amd _ _ _ descr _ _ _ _ =>
      descr == NExp.load_ring_task_draw || descr == NExp.load_ring_task_payload
  | _ => false

/-- A `nir_load_buffer_amd` on the task payload ring. -/
def Intrin.is_payload_ring_load : Intrin → Bool
  | .load_buffer_amd _ _ _ descr _ _ _ _ => descr == NExp.load_ring_task_payload
  | _ => false

/-- Holds when an instruction is not a ring-buffer access, or is one whose
scalar offset is one of the masked ring entry indices scaled by the matching
entry size. -/
def uses_masked_ring_index (s : lower_tsms_io_state) : Intrin → Bool
  | .store_buffer_amd _ descr _ soff _ _ _ =>
      !(descr == NExp.load_ring_task_draw || descr == NExp.load_ring_task_payload) ||
      (soff == NExp.imul_imm (task_ring_entry_index s) s.draw_entry_bytes ||
       soff == NExp.imul_imm (task_ring_entry_index s) s.payload_entry_bytes ||
       soff == NExp.imul_imm (mesh_ring_entry_index s) s.payload_entry_bytes)
  | .load_buffer_amd _ _ _ descr _ soff _ _ =>
      !(descr == NExp.load_ring_task_draw || descr == NExp.load_ring_task_payload) ||
      (soff == NExp.imul_imm (task_ring_entry_index s) s.draw_entry_bytes ||
       soff == NExp.imul_imm (task_ring_entry_index s) s.payload_entry_bytes ||
       soff == NExp.imul_imm (mesh_ring_entry_index s) s.payload_entry_bytes)
  | _ => true

/-! ### The claims -/

/-- Claim C1: after `ac_nir_lower_task_outputs_to_mem` no `store_output`,
`store_task_payload` or `load_task_payload` intrinsic remains anywhere in the
shader; each such intrinsic is replaced by `nir_store_buffer_amd` /
`nir_load_buffer_amd` accesses on the task draw ring or the task payload ring;
likewise `ac_nir_lower_mesh_inputs_to_mem` replaces every `load_task_payload`
of a mesh shader by a payload-ring buffer load and leaves none behind. -/
theorem C1_io_fully_lowered :
    ∀ (pb n mb mn : Nat) (body mbody : CfList),
      CfList.all_instr (fun i => !filter_task_output_or_payload i)
        (ac_nir_lower_task_outputs_to_mem pb n body) = true
      ∧ CfList.all_instr (fun i => !filter_mesh_input_load i)
        (ac_nir_lower_mesh_inputs_to_mem mb mn mbody) = true
      ∧ (∀ i, filter_task_output_or_payload i = true →
          (lower_task_intrinsics (taskmesh_io_state pb n) i).all
            Intrin.is_ring_buffer_access = true)
      ∧ (∀ i, filter_mesh_input_load i = true →
          (lower_mesh_intrinsics (taskmesh_io_state mb mn) i).all
            Intrin.is_payload_ring_load = true) := by
  intro pb n mb mn body mbody
  refine ⟨?_, ?_, ?_, ?_⟩
  · rw [ac_nir_lower_task_outputs_to_mem, all_instr_append]
    have hlow : CfList.all_instr (fun i => !filter_task_output_or_payload i)
        (lowerInstructionsList filter_task_output_or_payload
          (lower_task_intrinsics (taskmesh_io_state pb n)) body) = true := by
      apply all_instr_lowerList
      · intro i hi
        cases i <;> simp_all [lower_task_intrinsics, lower_task_output_store,
          lower_task_payload_store, lower_taskmesh_payload_load,
          task_write_draw_ring, filter_task_output_or_payload]
      · intro i hi
        simp [hi]
    rw [hlow]
    simp [emit_task_finale, CfList.all_instr, Cf.all_instr, task_write_draw_ring,
          filter_task_output_or_payload]
  · rw [ac_nir_lower_mesh_inputs_to_mem]
    apply all_instr_lowerList
    · intro i hi
      cases i <;> simp_all [lower_mesh_intrinsics, lower_taskmesh_payload_load,
        filter_mesh_input_load]
    · intro i hi
      simp [hi]
  · intro i hi
    cases i <;> simp_all [lower_task_intrinsics, lower_task_output_store,
      lower_task_payload_store, lower_taskmesh_payload_load, task_write_draw_ring,
      filter_task_output_or_payload, Intrin.is_ring_buffer_access]
  · intro i hi
    cases i <;> simp_all [lower_mesh_intrinsics, lower_taskmesh_payload_load,
      filter_mesh_input_load, Intrin.is_payload_ring_load]

/-- Witness for C1 at concrete inputs. -/
theorem C1_io_fully_lowered_witness :
    ((lower_task_intrinsics (taskmesh_io_state 4 8) (.store_output (.imm 7))).all
        Intrin.is_ring_buffer_access = true)
    ∧ ((lower_mesh_intrinsics (taskmesh_io_state 4 8)
          (.load_task_payload 0 1 32 0 (.imm 0))).all
        Intrin.is_payload_ring_load = true) :=
  ⟨(C1_io_fully_lowered 4 8 4 8 .nil .nil).2.2.1 (.store_output (.imm 7)) rfl,
   (C1_io_fully_lowered 4 8 4 8 .nil .nil).2.2.2 (.load_task_payload 0 1 32 0 (.imm 0)) rfl⟩

/-- Claim C2: the draw ready bit equals bit number `util_bitcount(num_entries - 1)`
(that is, `log2 num_entries`) of `ring_entry + workgroup_index`; it is 1 on
odd passes through the draw ring and 0 on even passes. -/
theorem C2_draw_ready_bit (s : lower_tsms_io_state) (k : Nat) (env : Env)
    (hn : s.num_entries = 2 ^ k) (hk : k < 32)
    (hsum : env.ring_entry + env.wg_x < pow2_32) :
    util_bitcount (s.num_entries - 1) = k
    ∧ headv (NExp.eval env (task_draw_ready_bit s)) =
        ((env.ring_entry + env.wg_x) / 2 ^ k) % 2
    ∧ (headv (NExp.eval env (task_draw_ready_bit s)) = 1 ↔
        ((env.ring_entry + env.wg_x) / s.num_entries) % 2 = 1)
    ∧ (headv (NExp.eval env (task_draw_ready_bit s)) = 0 ↔
        ((env.ring_entry + env.wg_x) / s.num_entries) % 2 = 0) := by
  have hpop : util_bitcount (s.num_entries - 1) = k := by
    rw [hn, util_bitcount_two_pow_sub_one]
  have hmod : (env.ring_entry + env.wg_x) % pow2_32 = env.ring_entry + env.wg_x :=
    Nat.mod_eq_of_lt hsum
  have hkk : k % 32 = k := Nat.mod_eq_of_lt hk
  have heval : headv (NExp.eval env (task_draw_ready_bit s)) =
      ((env.ring_entry + env.wg_x) / 2 ^ k) % 2 := by
    simp only [task_draw_ready_bit, task_workgroup_index, NExp.eval, headv,
      List.headD, List.getD, hpop, hmod]
    rw [nir_ubfe_val]
    simp only [hkk]
    have h1 : (1 : Nat) % 32 = 1 := by norm_num
    rw [h1]
    by_cases hlt : k + 1 < 32
    · simp [hlt, hmod]
    · have hk31 : k = 31 := by omega
      subst hk31
      simp only [hlt]
      have hdiv : (env.ring_entry + env.wg_x) / 2 ^ 31 < 2 := by
        have : env.ring_entry + env.wg_x < 2 ^ 32 := hsum
        have h2 : (2 : Nat) ^ 32 = 2 ^ 31 * 2 := by norm_num
        exact Nat.div_lt_of_lt_mul (by omega)
      simp [hlt, hmod]
      norm_num at hdiv ⊢
      omega
  refine ⟨hpop, heval, ?_, ?_⟩ <;> rw [heval, hn]

/-- Witness for C2 at concrete inputs: `num_entries = 8`, `ring_entry = 5`,
`workgroup id x = 6`; the sum 11 makes pass number 1 (odd), ready bit 1. -/
theorem C2_draw_ready_bit_witness :
    headv (NExp.eval (Env.mk 5 6 0 0 0 0 0 0 0 (fun _ => 0) (fun _ => []))
      (task_draw_ready_bit (taskmesh_io_state 4 8))) = 1 := by
  have h := C2_draw_ready_bit (taskmesh_io_state 4 8) 3
    (Env.mk 5 6 0 0 0 0 0 0 0 (fun _ => 0) (fun _ => []))
    (by norm_num [taskmesh_io_state]) (by norm_num)
    (by norm_num [Env.wg_x, Env.ring_entry, pow2_32])
  rw [h.2.1]
  decide

/-- Claim C3: every ring access emitted by the lowering passes addresses the ring at
one of the two masked entry indices (`(ring_entry + workgroup_index) &
(num_entries - 1)` for the task shader, `ring_entry & (num_entries - 1)` for
the mesh shader) scaled by the entry size, and when `num_entries` is a nonzero
power of two both masked indices are strictly less than `num_entries`. -/
theorem C3_ring_index_in_bounds (s : lower_tsms_io_state) (k : Nat) (env : Env)
    (hn : s.num_entries = 2 ^ k) :
    (∀ i, filter_task_output_or_payload i = true →
        (lower_task_intrinsics s i).all (uses_masked_ring_index s) = true)
    ∧ (∀ i, filter_mesh_input_load i = true →
        (lower_mesh_intrinsics s i).all (uses_masked_ring_index s) = true)
    ∧ CfList.all_instr (uses_masked_ring_index s) (emit_task_finale s) = true
    ∧ headv (NExp.eval env (task_ring_entry_index s)) < s.num_entries
    ∧ headv (NExp.eval env (mesh_ring_entry_index s)) < s.num_entries := by
  have hpos : 1 ≤ s.num_entries := by rw [hn]; exact Nat.one_le_two_pow
  refine ⟨?_, ?_, ?_, ?_, ?_⟩
  · intro i hi
    cases i <;> simp_all [lower_task_intrinsics, lower_task_output_store,
      lower_task_payload_store, lower_taskmesh_payload_load, task_write_draw_ring,
      filter_task_output_or_payload, uses_masked_ring_index]
  · intro i hi
    cases i <;> simp_all [lower_mesh_intrinsics, lower_taskmesh_payload_load,
      filter_mesh_input_load, uses_masked_ring_index]
  · simp [emit_task_finale, CfList.all_instr, Cf.all_instr, task_write_draw_ring,
      uses_masked_ring_index]
  · simp only [task_ring_entry_index, task_workgroup_index, NExp.eval, headv,
      List.headD, List.getD, List.get?, Option.getD]
    have hle : ((env.ring_entry + env.wg_x) % pow2_32) &&& (s.num_entries - 1)
        ≤ s.num_entries - 1 := Nat.and_le_right
    omega
  · have hle : env.ring_entry &&& (s.num_entries - 1) ≤ s.num_entries - 1 :=
      Nat.and_le_right
    simp only [mesh_ring_entry_index, NExp.eval, headv, List.headD]
    omega

/-- Witness for C3 at concrete inputs. -/
theorem C3_ring_index_in_bounds_witness :
    ((lower_task_intrinsics (taskmesh_io_state 4 8)
        (.store_task_payload (.imm 1) (.imm 0) 0 1)).all
      (uses_masked_ring_index (taskmesh_io_state 4 8)) = true)
    ∧ headv (NExp.eval (Env.mk 5 6 0 0 0 0 0 0 0 (fun _ => 0) (fun _ => []))
        (task_ring_entry_index (taskmesh_io_state 4 8))) <
        (taskmesh_io_state 4 8).num_entries := by
  have h := C3_ring_index_in_bounds (taskmesh_io_state 4 8) 3
    (Env.mk 5 6 0 0 0 0 0 0 0 (fun _ => 0) (fun _ => []))
    (by norm_num [taskmesh_io_state])
  exact ⟨h.1 (.store_task_payload (.imm 1) (.imm 0) 0 1) rfl, h.2.2.2.1⟩

/-- Claim C4: the lowered task shader ends with the ready-bit sequence appended after
everything else: a workgroup-scope acquire-release barrier over task payload,
shader output, SSBO and global memory, followed by an if-region entered only
when the local invocation index is 0, whose sole instruction stores the ready
bit at byte offset 12 of the 16-byte draw ring entry. -/
theorem C4_task_finale_shape :
    ∀ (pb n : Nat) (body : CfList),
      ac_nir_lower_task_outputs_to_mem pb n body =
        CfList.append
          (lowerInstructionsList filter_task_output_or_payload
            (lower_task_intrinsics (taskmesh_io_state pb n)) body)
          (.cons (.instr (.scoped_barrier NIR_SCOPE_WORKGROUP NIR_SCOPE_WORKGROUP
                    NIR_MEMORY_ACQ_REL
                    (nir_var_mem_task_payload ||| nir_var_shader_out |||
                     nir_var_mem_ssbo ||| nir_var_mem_global)))
           (.cons (.ifStmt (.ieq_imm .load_local_invocation_index 0)
                     (.cons (.instr (.store_buffer_amd
                               (task_draw_ready_bit (taskmesh_io_state pb n))
                               .load_ring_task_draw (.imm 0)
                               (.imul_imm (task_ring_entry_index (taskmesh_io_state pb n)) 16)
                               12 none nir_var_shader_out)) .nil)
                     .nil)
            .nil))
      ∧ (taskmesh_io_state pb n).draw_entry_bytes = 16 :=
  fun _ _ _ => ⟨rfl, rfl⟩

/-- Claim C9: a task shader `store_output` is lowered to exactly one 3-component
`nir_store_buffer_amd` on the draw ring at base offset 0 whose stored vector
evaluates to `(task_count, 1, 1)`. -/
theorem C9_store_output_lowering :
    ∀ (s : lower_tsms_io_state) (val : NExp) (env : Env),
      lower_task_intrinsics s (.store_output val) =
        [.store_buffer_amd (.vec3 val (.imm 1) (.imm 1)) .load_ring_task_draw (.imm 0)
           (.imul_imm (task_ring_entry_index s) s.draw_entry_bytes) 0 none
           nir_var_shader_out]
      ∧ NExp.eval env (.vec3 val (.imm 1) (.imm 1)) = [headv (NExp.eval env val), 1, 1] := by
  intro s val env
  exact ⟨rfl, by simp [NExp.eval, headv]⟩

/-- Claim C5: every firmware kick command struct with a declared layout assertion
satisfies it: its size is at most `ROGUE_FWIF_DM_INDEPENDENT_KICK_CMD_SIZE`
and its kernel-shared (or common) region is its first member at offset 0. -/
theorem C5_fwif_kick_cmd_layout_asserts :
    (offsetof_first rogue_fwif_cmd_ta = 0 ∧
     sizeofStruct rogue_fwif_cmd_ta ≤ ROGUE_FWIF_DM_INDEPENDENT_KICK_CMD_SIZE)
    ∧ (offsetof_first rogue_fwif_cmd_3d = 0 ∧
       sizeofStruct rogue_fwif_cmd_3d ≤ ROGUE_FWIF_DM_INDEPENDENT_KICK_CMD_SIZE)
    ∧ (offsetof_first rogue_fwif_cmd_transfer = 0 ∧
       sizeofStruct rogue_fwif_cmd_transfer ≤ ROGUE_FWIF_DM_INDEPENDENT_KICK_CMD_SIZE)
    ∧ (offsetof_first rogue_fwif_cmd_2d = 0 ∧
       sizeofStruct rogue_fwif_cmd_2d ≤ ROGUE_FWIF_DM_INDEPENDENT_KICK_CMD_SIZE)
    ∧ (offsetof_first rogue_fwif_cmd_compute = 0 ∧
       sizeofStruct rogue_fwif_cmd_compute ≤ ROGUE_FWIF_DM_INDEPENDENT_KICK_CMD_SIZE) := by
  decide

/-- Claim C6: `pvr_AcquireNextImage2KHR` returns the underlying result untouched and
leaves the fence and semaphore alone whenever the wrapped call returns other
than `VK_SUCCESS`/`VK_SUBOPTIMAL_KHR`; otherwise it resets the temporary
payload of any provided fence and semaphore and installs a dummy sync in each,
returning the underlying result (preserving `VK_SUBOPTIMAL_KHR`) unless one of
the dummy-sync creations fails, in which case that failure is returned (with
the failed slot left reset). -/
theorem C6_acquire_next_image_behaviour (w : Int)
    (fence sem : Option (Option VkSync)) (fc sc : Int) :
    (w ≠ VK_SUCCESS → w ≠ VK_SUBOPTIMAL_KHR →
       pvr_AcquireNextImage2KHR w fence sem fc sc = ⟨w, fence, sem⟩)
    ∧ ((w = VK_SUCCESS ∨ w = VK_SUBOPTIMAL_KHR) → fc = VK_SUCCESS → sc = VK_SUCCESS →
       pvr_AcquireNextImage2KHR w fence sem fc sc =
         ⟨w, fence.map fun _ => some VkSync.dummy, sem.map fun _ => some VkSync.dummy⟩)
    ∧ ((w = VK_SUCCESS ∨ w = VK_SUBOPTIMAL_KHR) → fence ≠ none → fc ≠ VK_SUCCESS →
       pvr_AcquireNextImage2KHR w fence sem fc sc = ⟨fc, some none, sem⟩)
    ∧ ((w = VK_SUCCESS ∨ w = VK_SUBOPTIMAL_KHR) → (fence = none ∨ fc = VK_SUCCESS) →
       sem ≠ none → sc ≠ VK_SUCCESS →
       pvr_AcquireNextImage2KHR w fence sem fc sc =
         ⟨sc, fence.map fun _ => some VkSync.dummy, some none⟩) := by
  refine ⟨?_, ?_, ?_, ?_⟩
  · intro h1 h2
    simp [pvr_AcquireNextImage2KHR, h1, h2]
  · intro hw hfc hsc
    have hnot : ¬(w ≠ VK_SUCCESS ∧ w ≠ VK_SUBOPTIMAL_KHR) := by tauto
    cases fence <;> cases sem <;>
      simp [pvr_AcquireNextImage2KHR, hnot, hfc, hsc]
  · intro hw hf hfc
    have hnot : ¬(w ≠ VK_SUCCESS ∧ w ≠ VK_SUBOPTIMAL_KHR) := by tauto
    cases fence with
    | none => exact absurd rfl hf
    | some f0 => simp [pvr_AcquireNextImage2KHR, hnot, hfc]
  · intro hw hff hs hsc
    have hnot : ¬(w ≠ VK_SUCCESS ∧ w ≠ VK_SUBOPTIMAL_KHR) := by tauto
    cases sem with
    | none => exact absurd rfl hs
    | some s0 =>
      cases fence with
      | none => simp [pvr_AcquireNextImage2KHR, hnot, hsc]
      | some f0 =>
        have hfc : fc = VK_SUCCESS := by tauto
        simp [pvr_AcquireNextImage2KHR, hnot, hfc, hsc]

/-- Witness for C6 at concrete inputs covering all four branches. -/
theorem C6_acquire_next_image_witness :
    pvr_AcquireNextImage2KHR VK_ERROR_OUT_OF_DATE_KHR (some none) none
        VK_SUCCESS VK_SUCCESS =
      ⟨VK_ERROR_OUT_OF_DATE_KHR, some none, none⟩
    ∧ pvr_AcquireNextImage2KHR VK_SUBOPTIMAL_KHR (some none)
        (some (some (VkSync.payload 3))) VK_SUCCESS VK_SUCCESS =
      ⟨VK_SUBOPTIMAL_KHR, some (some VkSync.dummy), some (some VkSync.dummy)⟩
    ∧ pvr_AcquireNextImage2KHR VK_SUCCESS (some none) none
        VK_ERROR_OUT_OF_HOST_MEMORY VK_SUCCESS =
      ⟨VK_ERROR_OUT_OF_HOST_MEMORY, some none, none⟩
    ∧ pvr_AcquireNextImage2KHR VK_SUCCESS none (some none)
        VK_SUCCESS VK_ERROR_OUT_OF_HOST_MEMORY =
      ⟨VK_ERROR_OUT_OF_HOST_MEMORY, none, some none⟩ :=
  ⟨(C6_acquire_next_image_behaviour VK_ERROR_OUT_OF_DATE_KHR (some none) none
      VK_SUCCESS VK_SUCCESS).1 (by decide) (by decide),
   (C6_acquire_next_image_behaviour VK_SUBOPTIMAL_KHR (some none)
      (some (some (VkSync.payload 3))) VK_SUCCESS VK_SUCCESS).2.1
      (Or.inr rfl) rfl rfl,
   (C6_acquire_next_image_behaviour VK_SUCCESS (some none) none
      VK_ERROR_OUT_OF_HOST_MEMORY VK_SUCCESS).2.2.1
      (Or.inl rfl) (by decide) (by decide),
   (C6_acquire_next_image_behaviour VK_SUCCESS none (some none)
      VK_SUCCESS VK_ERROR_OUT_OF_HOST_MEMORY).2.2.2
      (Or.inl rfl) (Or.inl rfl) (by decide) (by decide)⟩

/-- Claim C7 counterexample: the claim says `pvr_QueuePresentKHR` changes no driver
state beyond the wrapped call, but on `VK_SUCCESS` it increments
`device->global_queue_present_count`: with the wrapped call returning
`VK_SUCCESS` and the counter at 0, a pure pass-through would leave the state
`⟨VK_SUCCESS, 0⟩`, yet the function returns counter 1. -/
theorem C7_queue_present_counterexample :
    pvr_QueuePresentKHR VK_SUCCESS 0 ≠ ⟨VK_SUCCESS, 0⟩ := by
  decide

/-- Claim C7 as amended: `pvr_QueuePresentKHR` returns exactly the wrapped call's
result, and its only state change is incrementing the device's global queue
present counter when that result is `VK_SUCCESS`. -/
theorem C7_queue_present_result_and_counter :
    ∀ (r : Int) (c : Nat),
      (pvr_QueuePresentKHR r c).result = r ∧
      (pvr_QueuePresentKHR r c).global_queue_present_count =
        (if r = VK_SUCCESS then c + 1 else c) := by
  intro r c
  rw [pvr_QueuePresentKHR]
  by_cases h : r = VK_SUCCESS <;> simp [h]

theorem list_pair_all_iff_forall₂ (p : α → α → Bool) :
    ∀ as bs : List α, as.length = bs.length →
      (list_pair_all p as bs = true ↔ List.Forall₂ (fun a b => p a b = true) as bs)
  | [], [], _ => by simp [list_pair_all]
  | [], _ :: _, h => by simp at h
  | _ :: _, [], h => by simp at h
  | a :: as, b :: bs, h => by
    have hl : as.length = bs.length := by simpa using h
    simp [list_pair_all, List.forall₂_cons, Bool.and_eq_true,
      list_pair_all_iff_forall₂ p as bs hl]

theorem list_pair_all_refl (p : α → α → Bool) (h : ∀ a, p a a = true) :
    ∀ l : List α, list_pair_all p l l = true
  | [] => rfl
  | a :: l => by simp [list_pair_all, h a, list_pair_all_refl p h l]

theorem list_pair_all_symm (p : α → α → Bool) (h : ∀ a b, p a b = p b a) :
    ∀ as bs : List α, list_pair_all p as bs = list_pair_all p bs as
  | [], [] => rfl
  | [], _ :: _ => rfl
  | _ :: _, [] => rfl
  | a :: as, b :: bs => by
    simp [list_pair_all, h a b, list_pair_all_symm p h as bs]

theorem bit_instr_equal_symm (a b : bi_instr) : bit_instr_equal a b = bit_instr_equal b a := by
  rw [Bool.eq_iff_iff]
  simp only [bit_instr_equal, beq_iff_eq]
  exact eq_comm

theorem bit_block_equal_iff (A B : bi_block) :
    bit_block_equal A B = true ↔
      (A.instructions.length = B.instructions.length ∧
       List.Forall₂ (fun x y : bi_instr => x.bytes = y.bytes)
         A.instructions B.instructions) := by
  rw [bit_block_equal]
  simp only [Bool.and_eq_true, beq_iff_eq]
  constructor
  · rintro ⟨hlen, hall⟩
    refine ⟨hlen, ?_⟩
    have h := (list_pair_all_iff_forall₂ bit_instr_equal _ _ hlen).1 hall
    exact h.imp fun a b hab => by simpa [bit_instr_equal] using hab
  · rintro ⟨hlen, hall⟩
    refine ⟨hlen, ?_⟩
    exact (list_pair_all_iff_forall₂ bit_instr_equal _ _ hlen).2
      (hall.imp fun a b hab => by simp [bit_instr_equal, hab])

theorem bit_block_equal_symm (a b : bi_block) :
    bit_block_equal a b = bit_block_equal b a := by
  rw [Bool.eq_iff_iff]
  simp only [bit_block_equal, Bool.and_eq_true, beq_iff_eq]
  rw [list_pair_all_symm bit_instr_equal bit_instr_equal_symm]
  constructor
  · rintro ⟨h1, h2⟩
    exact ⟨h1.symm, h2⟩
  · rintro ⟨h1, h2⟩
    exact ⟨h1.symm, h2⟩

theorem bit_block_equal_refl (a : bi_block) : bit_block_equal a a = true := by
  rw [bit_block_equal, Bool.and_eq_true]
  exact ⟨by simp, list_pair_all_refl _ (fun x => by simp [bit_instr_equal]) _⟩

/-- Claim C10: `bit_shader_equal A B` holds exactly when the shaders have equally
many blocks, corresponding blocks have equally many instructions, and
corresponding instructions agree on every byte after the leading intrusive
list link; consequently the relation is reflexive and symmetric. -/
theorem C10_bit_shader_equal_characterization :
    (∀ A B : bi_context,
       bit_shader_equal A B = true ↔
         (A.blocks.length = B.blocks.length ∧
          List.Forall₂ (fun a b : bi_block =>
            a.instructions.length = b.instructions.length ∧
            List.Forall₂ (fun x y : bi_instr => x.bytes = y.bytes)
              a.instructions b.instructions) A.blocks B.blocks))
    ∧ (∀ A : bi_context, bit_shader_equal A A = true)
    ∧ (∀ A B : bi_context, bit_shader_equal A B = bit_shader_equal B A) := by
  refine ⟨?_, ?_, ?_⟩
  · intro A B
    rw [bit_shader_equal]
    simp only [Bool.and_eq_true, beq_iff_eq]
    constructor
    · rintro ⟨hlen, hall⟩
      refine ⟨hlen, ?_⟩
      have h := (list_pair_all_iff_forall₂ bit_block_equal _ _ hlen).1 hall
      exact h.imp fun a b hab => (bit_block_equal_iff a b).1 hab
    · rintro ⟨hlen, hall⟩
      refine ⟨hlen, ?_⟩
      exact (list_pair_all_iff_forall₂ bit_block_equal _ _ hlen).2
        (hall.imp fun a b hab => (bit_block_equal_iff a b).2 hab)
  · intro A
    rw [bit_shader_equal, Bool.and_eq_true]
    exact ⟨by simp, list_pair_all_refl _ bit_block_equal_refl _⟩
  · intro A B
    rw [Bool.eq_iff_iff]
    simp only [bit_shader_equal, Bool.and_eq_true, beq_iff_eq]
    rw [list_pair_all_symm bit_block_equal bit_block_equal_symm]
    constructor
    · rintro ⟨h1, h2⟩
      exact ⟨h1.symm, h2⟩
    · rintro ⟨h1, h2⟩
      exact ⟨h1.symm, h2⟩

/-- Environment after the workgroup-id value has been replaced by `v`. -/
def Env.with_wg (env : Env) (v : List Nat) : Env :=
  { env with wg_x := headv v, wg_y := v.getD 1 0, wg_z := v.getD 2 0 }

theorem eval_subst_wgid (env : Env) (r : NExp) (a b c : Nat)
    (hr : NExp.eval env r = [a, b, c]) :
    ∀ e : NExp, NExp.eval env (e.subst_wgid r) =
      NExp.eval (env.with_wg (NExp.eval env r)) e := by
  intro e
  induction e <;>
    simp_all [NExp.subst_wgid, NExp.eval, Env.with_wg, headv]

/-- Claim C8: when the shader does not read `SYSTEM_VALUE_WORKGROUP_ID` the pass is
the identity; otherwise every pre-existing workgroup-id use is replaced by the
vector `(hw_workgroup_id.x + firstTask, 0, 0)`, where `firstTask` is the
32-bit value loaded from the indirect buffer at byte offset
`draw_id * stride + 4` when the IB stride is nonzero and is 0 when the stride
is zero. -/
theorem C8_apply_first_task (sh : nir_shader) (env : Env) :
    (sh.reads_workgroup_id = false → ac_nir_apply_first_task_to_task_shader sh = sh)
    ∧ (sh.reads_workgroup_id = true →
        ac_nir_apply_first_task_to_task_shader sh =
          { sh with body := sh.body.subst_wgid api_workgroup_id })
    ∧ NExp.eval env api_workgroup_id =
        [(env.wg_x +
           (if env.ib_stride ≠ 0 then
              env.mem (((env.ib_addr_lo + env.ib_addr_hi * pow2_32 +
                         (env.draw_id * env.ib_stride) % pow2_32) % pow2_64 + 4) % pow2_64)
            else 0)) % pow2_32, 0, 0]
    ∧ (∀ e : NExp, NExp.eval env (e.subst_wgid api_workgroup_id) =
         NExp.eval (env.with_wg (NExp.eval env api_workgroup_id)) e) := by
  have h3 : NExp.eval env api_workgroup_id =
      [(env.wg_x +
         (if env.ib_stride ≠ 0 then
            env.mem (((env.ib_addr_lo + env.ib_addr_hi * pow2_32 +
                       (env.draw_id * env.ib_stride) % pow2_32) % pow2_64 + 4) % pow2_64)
          else 0)) % pow2_32, 0, 0] := by
    by_cases hs : env.ib_stride = 0 <;>
      simp [api_workgroup_id, first_task_value, NExp.eval, headv, hs]
  refine ⟨?_, ?_, h3, ?_⟩
  · intro h
    rw [ac_nir_apply_first_task_to_task_shader, h]
    simp
  · intro h
    rw [ac_nir_apply_first_task_to_task_shader, h]
    simp
  · exact fun e => eval_subst_wgid env api_workgroup_id _ 0 0 h3 e

/-- Witness for C8 at concrete inputs: a shader that does not read the
workgroup id is unchanged, and in one that does, a `store_output` source using
the workgroup id is rewritten to use the `api_workgroup_id` vector. -/
theorem C8_apply_first_task_witness :
    ac_nir_apply_first_task_to_task_shader ⟨false, .nil⟩ = ⟨false, .nil⟩
    ∧ ac_nir_apply_first_task_to_task_shader
        ⟨true, .cons (.instr (.store_output (.channel .load_workgroup_id 0))) .nil⟩ =
      ⟨true, .cons (.instr (.store_output (.channel api_workgroup_id 0))) .nil⟩ := by
  constructor
  · exact (C8_apply_first_task ⟨false, .nil⟩
      (Env.mk 5 6 0 0 0 0 0 0 0 (fun _ => 0) (fun _ => []))).1 rfl
  · rw [(C8_apply_first_task
      ⟨true, .cons (.instr (.store_output (.channel .load_workgroup_id 0))) .nil⟩
      (Env.mk 5 6 0 0 0 0 0 0 0 (fun _ => 0) (fun _ => []))).2.1 rfl]
    rfl

end Mesa
